import Mathlib

/-!
Verification of the Toolbox desktop utility (image/PDF converter, PDF
viewer/annotator, screenshot capturer) against its specification.

The Python sources are shallowly embedded: each GUI event handler becomes a
pure function from the annotator/converter/selector state together with the
results of the underlying library calls (modelled as `Except String`) to the
new state, the message boxes shown, and an optional exception escaping the
handler.  Tk canvas rendering and file contents are outside the claims and
are not modelled; the state a handler reads and writes is.
-/

/-- Result of an underlying library call (PyMuPDF, Pillow, Tk): either a
value or the message of the exception it raised. -/
abbrev LibResult (α : Type) := Except String α

/-- A modal message box shown to the user (`messagebox.showinfo` /
`showerror` / `showwarning`). -/
structure MsgBox where
  kind : String
  title : String
  text : String
deriving DecidableEq

def infoBox (title text : String) : MsgBox := ⟨"info", title, text⟩

def errorBox (title text : String) : MsgBox := ⟨"error", title, text⟩

def warnBox (title text : String) : MsgBox := ⟨"warning", title, text⟩

/-- Outcome of one user-triggered action handler: the state it leaves
behind, the message boxes it showed, and the message of an exception that
escaped the handler (`none` when the handler returned normally). -/
structure HandlerOutcome (σ : Type) where
  state : σ
  msgs : List MsgBox
  raised : Option String
deriving DecidableEq

namespace Toolbox

/-- Record `PageAnnotations` from `pdf_annotator.py`: strokes are ordered lists of
2D integer points, texts are positions with a string. -/
structure PageAnnotations where
  strokes : List (List (Int × Int))
  texts : List (Int × Int × String)
deriving DecidableEq

/-- The empty record `PageAnnotations()` produced by the dataclass default
factories. -/
def PageAnnotations.empty : PageAnnotations := ⟨[], []⟩

/-- The annotations dict `Dict[int, PageAnnotations]`, embedded as an
association list in insertion order (CPython dicts preserve insertion
order). -/
abbrev AnnMap := List (Nat × PageAnnotations)

/-- Lookup `annotations.get(page)`. -/
def getAnn (m : AnnMap) (k : Nat) : Option PageAnnotations :=
  match m with
  | [] => none
  | (k1, v) :: rest => if k1 = k then some v else getAnn rest k

/-- Store `v` under `k`: update in place when present, append when new
(matching dict insertion-order semantics). -/
def setAnn (m : AnnMap) (k : Nat) (v : PageAnnotations) : AnnMap :=
  match m with
  | [] => [(k, v)]
  | (k1, v1) :: rest => if k1 = k then (k, v) :: rest else (k1, v1) :: setAnn rest k v

/-- Combination `annotations.setdefault(page, PageAnnotations())` followed by a mutation
`f` of the record. -/
def markPage (m : AnnMap) (k : Nat) (f : PageAnnotations → PageAnnotations) : AnnMap :=
  setAnn m k (f ((getAnn m k).getD PageAnnotations.empty))

/-- The mutable state of a `PDFAnnotator` window: the open document (its
page count), the current page index, the per-page annotations dict, the
draw/text mode and the in-progress canvas line (its coordinate list). -/
structure AnnotatorState where
  doc : Option Nat
  current_page : Nat
  annotations : AnnMap
  mode : String
  current_line : Option (List (Int × Int))
deriving DecidableEq

/-- The state established by `PDFAnnotator.__init__`. -/
def initState : AnnotatorState :=
  { doc := none, current_page := 0, annotations := [], mode := "draw", current_line := none }

/-- Handler `PDFAnnotator.display_page`: re-renders the current page.  It has no
try/except of its own, so a failure of `get_pixmap` / `Image.frombytes`
(the `render` argument) escapes.  It does not change the modelled state. -/
def display_page (s : AnnotatorState) (render : LibResult Unit) :
    HandlerOutcome AnnotatorState :=
  match s.doc with
  | none => ⟨s, [], none⟩
  | some _ =>
    match render with
    | .ok _ => ⟨s, [], none⟩
    | .error e => ⟨s, [], some e⟩

/-- Handler `PDFAnnotator.open_pdf`: file dialog result `path`, `fitz.open` result
`openRes` (page count on success), then the rendering of page 0.  The whole
body after the dialog sits in one try/except that shows an error box. -/
def open_pdf (s : AnnotatorState) (path : Option String) (openRes : LibResult Nat)
    (render : LibResult Unit) : HandlerOutcome AnnotatorState :=
  match path with
  | none => ⟨s, [], none⟩
  | some _ =>
    match openRes with
    | .error e => ⟨s, [errorBox "Error" ("Failed to open PDF: " ++ e)], none⟩
    | .ok n =>
      let s1 : AnnotatorState :=
        { s with doc := some n, current_page := 0, annotations := [] }
      match (display_page s1 render).raised with
      | none => ⟨s1, [], none⟩
      | some e => ⟨s1, [errorBox "Error" ("Failed to open PDF: " ++ e)], none⟩

/-- Handler `PDFAnnotator.prev_page`: decrement the page index when it is positive,
then `display_page` (whose exception, if any, escapes: there is no
try/except here). -/
def prev_page (s : AnnotatorState) (render : LibResult Unit) :
    HandlerOutcome AnnotatorState :=
  match s.doc with
  | none => ⟨s, [], none⟩
  | some _ =>
    if 0 < s.current_page then
      display_page { s with current_page := s.current_page - 1 } render
    else ⟨s, [], none⟩

/-- Handler `PDFAnnotator.next_page`: increment the page index when it is below
`len(doc) - 1`, then `display_page` (no try/except here either). -/
def next_page (s : AnnotatorState) (render : LibResult Unit) :
    HandlerOutcome AnnotatorState :=
  match s.doc with
  | none => ⟨s, [], none⟩
  | some n =>
    if s.current_page < n - 1 then
      display_page { s with current_page := s.current_page + 1 } render
    else ⟨s, [], none⟩

/-- Handler `PDFAnnotator.set_mode`. -/
def set_mode (s : AnnotatorState) (m : String) : AnnotatorState :=
  { s with mode := m }

/-- Handler `PDFAnnotator.on_press`: in draw mode start a canvas line with the press
point doubled (`create_line(x, y, x, y)`); in text mode ask for a string
(`textInput`, `none` when the dialog is cancelled) and, when it is nonempty,
record it on the current page via `setdefault`. -/
def on_press (s : AnnotatorState) (x y : Int) (textInput : Option String) :
    AnnotatorState :=
  if s.mode = "draw" then
    { s with current_line := some [(x, y), (x, y)] }
  else if s.mode = "text" then
    match textInput with
    | none => s
    | some t =>
      if t = "" then s
      else
        let addText := fun (pa : PageAnnotations) =>
          { pa with texts := pa.texts ++ [(x, y, t)] }
        { s with annotations := markPage s.annotations s.current_page addText }
  else s

/-- Handler `PDFAnnotator.on_drag`: extend the in-progress canvas line by the new
point. -/
def on_drag (s : AnnotatorState) (x y : Int) : AnnotatorState :=
  if s.mode = "draw" then
    match s.current_line with
    | none => s
    | some pts => { s with current_line := some (pts ++ [(x, y)]) }
  else s

/-- Handler `PDFAnnotator.on_release`: in draw mode with a line in progress, read the
line's coordinates back as integer points and append the finished stroke to
the current page's record via `setdefault`, then drop the line. -/
def on_release (s : AnnotatorState) : AnnotatorState :=
  if s.mode = "draw" then
    match s.current_line with
    | none => s
    | some pts =>
      let addStroke := fun (pa : PageAnnotations) =>
        { pa with strokes := pa.strokes ++ [pts] }
      { s with
        annotations := markPage s.annotations s.current_page addStroke,
        current_line := none }
  else s

/-- One drawing-layer operation that `save_pdf` flattens into a page:
`shape.draw_polyline` for a stroke, `page.insert_text` for a label. -/
inductive DrawCmd where
  | polyline (pts : List (Int × Int))
  | text (x y : Int) (s : String)
deriving DecidableEq

/-- The drawing/text-layer operations `save_pdf` emits for one page's
record: the strokes as polylines, then the text insertions. -/
def flatten_page (ann : PageAnnotations) : List DrawCmd :=
  ann.strokes.map DrawCmd.polyline ++
    ann.texts.map (fun p => DrawCmd.text p.1 p.2.1 p.2.2)

/-- Handler `PDFAnnotator.save_pdf`: save dialog result `savePath`, then flatten
every page's record into the document and `doc.save` (`saveRes` stands for
the whole try block).  Returns the outcome plus the per-page operations
written on success.  The annotations dict is not touched. -/
def save_pdf (s : AnnotatorState) (savePath : Option String) (saveRes : LibResult Unit) :
    HandlerOutcome AnnotatorState × List (Nat × List DrawCmd) :=
  match s.doc with
  | none => (⟨s, [], none⟩, [])
  | some _ =>
    match savePath with
    | none => (⟨s, [], none⟩, [])
    | some p =>
      match saveRes with
      | .ok _ =>
        (⟨s, [infoBox "Saved" ("Annotations saved to " ++ p)], none⟩,
          s.annotations.map (fun kv => (kv.1, flatten_page kv.2)))
      | .error e => (⟨s, [errorBox "Error" ("Failed to save: " ++ e)], none⟩, [])

/-- A user/GUI event hitting the annotator window, carrying the library-call
results the corresponding handler consumes. -/
inductive AnnEvent where
  | openPdf (path : Option String) (openRes : LibResult Nat) (render : LibResult Unit)
  | prevPage (render : LibResult Unit)
  | nextPage (render : LibResult Unit)
  | setMode (m : String)
  | press (x y : Int) (textInput : Option String)
  | drag (x y : Int)
  | release
  | savePdf (savePath : Option String) (saveRes : LibResult Unit)

/-- The state transition of one event.  When a handler raises, the Tk
mainloop swallows the exception after the handler's state mutations have
already happened, so the state component applies regardless. -/
def step (s : AnnotatorState) : AnnEvent → AnnotatorState
  | .openPdf path openRes render => (open_pdf s path openRes render).state
  | .prevPage render => (prev_page s render).state
  | .nextPage render => (next_page s render).state
  | .setMode m => set_mode s m
  | .press x y t => on_press s x y t
  | .drag x y => on_drag s x y
  | .release => on_release s
  | .savePdf p r => (save_pdf s p r).1.state

/-- The annotator state after a sequence of events from a fresh window. -/
def runTrace (tr : List AnnEvent) : AnnotatorState :=
  tr.foldl step initState

/-- The output-format list of `ConverterTool.__init__`, the `values` of the
read-only combobox. -/
def formats : List String := ["JPEG", "PNG", "TIFF", "BMP", "GIF", "WEBP", "PDF"]

/-- Modelled from the spec: the formats the external-interfaces section
names, the standard image formats JPEG, PNG, TIFF, BMP, GIF, WEBP and
PDF. -/
def spec_formats : List String := ["JPEG", "PNG", "TIFF", "BMP", "GIF", "WEBP", "PDF"]

/-- A read-only combobox only ever yields one of its `values`: the selected
format is an element of `formats`, picked by index. -/
def selected_format (i : Fin formats.length) : String :=
  formats.get i

/-- The mutable state of a `ConverterTool` window: the chosen input path and
the widget variables read by `convert`. -/
structure ConverterState where
  input_path : Option String
  format_var : String
  width_entry : String
  height_entry : String
  dpi_entry : String
  gray_var : Bool
deriving DecidableEq

/-- Helper `ConverterTool._parse_int`: `int(value)` with `ValueError` caught and
turned into `None`.  `parsed` is the result of the `int` call. -/
def parse_int (parsed : LibResult Int) : Option Int :=
  match parsed with
  | .ok n => some n
  | .error _ => none

/-- Handler `ConverterTool.convert`: warn when no file is chosen, do nothing when
the save dialog is cancelled, otherwise run the conversion (`convRes` is the
whole `_convert_pdf` / `_convert_image` call) inside try/except and report
via a message box. -/
def convert (s : ConverterState) (savePath : Option String) (convRes : LibResult Unit) :
    HandlerOutcome ConverterState :=
  match s.input_path with
  | none => ⟨s, [warnBox "No file" "Please select a file to convert."], none⟩
  | some _ =>
    match savePath with
    | none => ⟨s, [], none⟩
    | some p =>
      match convRes with
      | .ok _ => ⟨s, [infoBox "Done" ("File saved to " ++ p)], none⟩
      | .error e => ⟨s, [errorBox "Error" ("Conversion failed: " ++ e)], none⟩

/-- Handler `ScreenshotTool.full_screen`: save dialog result `path`, then
`ImageGrab.grab` plus `img.save` (`grabSave`) inside try/except. -/
def full_screen (path : Option String) (grabSave : LibResult Unit) :
    HandlerOutcome Unit :=
  match path with
  | none => ⟨(), [], none⟩
  | some p =>
    match grabSave with
    | .ok _ => ⟨(), [infoBox "Saved" ("Screenshot saved to " ++ p)], none⟩
    | .error e => ⟨(), [errorBox "Error" ("Failed to capture screenshot: " ++ e)], none⟩

/-- Handler `ScreenshotTool.region` after the selector window closed: if a bounding
box was selected, run the save dialog and the grab-and-save (`grabSave`)
inside try/except. -/
def region (bbox : Option (Int × Int × Int × Int)) (path : Option String)
    (grabSave : LibResult Unit) : HandlerOutcome Unit :=
  match bbox with
  | none => ⟨(), [], none⟩
  | some _ =>
    match path with
    | none => ⟨(), [], none⟩
    | some p =>
      match grabSave with
      | .ok _ => ⟨(), [infoBox "Saved" ("Screenshot saved to " ++ p)], none⟩
      | .error e => ⟨(), [errorBox "Error" ("Failed to capture screenshot: " ++ e)], none⟩

/-- The mutable state of a `_RegionSelector`: the press point, whether the
rubber-band rectangle exists, and the selected bounding box. -/
structure RegionSelectorState where
  start_x : Int
  start_y : Int
  rect : Option Unit
  bbox : Option (Int × Int × Int × Int)
deriving DecidableEq

/-- The state established by `_RegionSelector.__init__`. -/
def selectorInit : RegionSelectorState :=
  { start_x := 0, start_y := 0, rect := none, bbox := none }

/-- Handler `_RegionSelector.on_press`: remember the press point and create the
rubber-band rectangle. -/
def selector_on_press (s : RegionSelectorState) (x y : Int) : RegionSelectorState :=
  { s with start_x := x, start_y := y, rect := some () }

/-- Handler `_RegionSelector.on_release`: when a rectangle exists, normalise the two
corners into `(min xs, min ys, max xs, max ys)` and close the window. -/
def selector_on_release (s : RegionSelectorState) (x y : Int) : RegionSelectorState :=
  match s.rect with
  | none => s
  | some _ =>
    { s with bbox := some (min s.start_x x, min s.start_y y, max s.start_x x, max s.start_y y) }

/-! ### Invariant predicates -/

/-- Every record present in the annotations dict holds at least one mark:
records only come into existence together with their first stroke or text. -/
def entriesNonempty (s : AnnotatorState) : Prop :=
  ∀ k v, getAnn s.annotations k = some v → v.strokes ≠ [] ∨ v.texts ≠ []

/-- The current page index lies inside the open document. -/
def pageInBounds (s : AnnotatorState) : Prop :=
  ∀ n, s.doc = some n → 1 ≤ n → s.current_page < n

/-! ### Concrete states and traces used by witnesses and counterexamples -/

/-- A two-page document open on its second page, no annotations yet. -/
def navState : AnnotatorState :=
  { doc := some 2, current_page := 1, annotations := [], mode := "draw",
    current_line := none }

/-- A one-page document whose first page carries one stroke and one text. -/
def savedState : AnnotatorState :=
  { doc := some 1, current_page := 0,
    annotations := [(0, { strokes := [[(1, 2), (3, 4)]], texts := [(5, 6, "note")] })],
    mode := "draw", current_line := none }

/-- Open a two-page document, then draw one stroke on page 0. -/
def strokeTrace : List AnnEvent :=
  [.openPdf (some "doc.pdf") (.ok 2) (.ok ()), .press 5 5 none, .drag 6 7, .release]

/-- A freehand stroke in progress in draw mode. -/
def drawState : AnnotatorState :=
  { doc := some 1, current_page := 0, annotations := [], mode := "draw",
    current_line := some [(1, 2), (1, 2)] }

/-- Text mode with no stroke in progress. -/
def textState : AnnotatorState :=
  { doc := some 1, current_page := 0, annotations := [], mode := "text",
    current_line := none }

/-- Draw mode with a finished page-0 record and a stroke in progress. -/
def richDrawState : AnnotatorState :=
  { doc := some 1, current_page := 0,
    annotations := [(0, { strokes := [[(9, 9)]], texts := [(0, 0, "a")] })],
    mode := "draw", current_line := some [(1, 2), (1, 2), (3, 4)] }

/-- Text mode with a finished page-0 record. -/
def richTextState : AnnotatorState :=
  { doc := some 1, current_page := 0,
    annotations := [(0, { strokes := [[(9, 9)]], texts := [(0, 0, "a")] })],
    mode := "text", current_line := none }

/-- Open a three-page document and navigate: forward three times (the last
is a no-op at the final page), then back once. -/
def navTrace : List AnnEvent :=
  [.openPdf (some "doc.pdf") (.ok 3) (.ok ()), .nextPage (.ok ()), .nextPage (.ok ()),
   .nextPage (.ok ()), .prevPage (.ok ())]

/-! ### Basic lemmas about the annotations map and the handlers -/

theorem getAnn_setAnn (m : AnnMap) (k j : Nat) (v : PageAnnotations) :
    getAnn (setAnn m k v) j = if k = j then some v else getAnn m j := by
  induction m with
  | nil => simp [setAnn, getAnn]
  | cons hd tl ih =>
    obtain ⟨k1, v1⟩ := hd
    by_cases hk : k1 = k
    · subst hk
      by_cases hj : k1 = j <;> simp [setAnn, getAnn, hj]
    · by_cases hj : k1 = j
      · subst hj
        have : ¬ k = k1 := fun h => hk h.symm
        simp [setAnn, getAnn, hk, this]
      · simp [setAnn, getAnn, hk, hj, ih]

theorem getAnn_markPage (m : AnnMap) (k j : Nat) (f : PageAnnotations → PageAnnotations) :
    getAnn (markPage m k f) j =
      if k = j then some (f ((getAnn m k).getD PageAnnotations.empty))
      else getAnn m j := by
  unfold markPage
  exact getAnn_setAnn m k j _

theorem display_page_state (s : AnnotatorState) (r : LibResult Unit) :
    (display_page s r).state = s := by
  obtain ⟨doc, cp, anns, m, cl⟩ := s
  cases doc <;> cases r <;> rfl

theorem prev_page_state (s : AnnotatorState) (r : LibResult Unit) :
    (prev_page s r).state =
      match s.doc with
      | none => s
      | some _ =>
        if 0 < s.current_page then { s with current_page := s.current_page - 1 }
        else s := by
  obtain ⟨doc, cp, anns, m, cl⟩ := s
  cases doc with
  | none => rfl
  | some n =>
    by_cases hc : 0 < cp
    · simp [prev_page, display_page_state, hc]
    · simp [prev_page, display_page_state, hc]

theorem next_page_state (s : AnnotatorState) (r : LibResult Unit) :
    (next_page s r).state =
      match s.doc with
      | none => s
      | some n =>
        if s.current_page < n - 1 then { s with current_page := s.current_page + 1 }
        else s := by
  obtain ⟨doc, cp, anns, m, cl⟩ := s
  cases doc with
  | none => rfl
  | some n =>
    by_cases hc : cp < n - 1
    · simp [next_page, display_page_state, hc]
    · simp [next_page, display_page_state, hc]

theorem save_pdf_state (s : AnnotatorState) (savePath : Option String)
    (saveRes : LibResult Unit) : (save_pdf s savePath saveRes).1.state = s := by
  obtain ⟨doc, cp, anns, m, cl⟩ := s
  cases doc <;> cases savePath <;> cases saveRes <;> rfl

theorem on_press_doc (s : AnnotatorState) (x y : Int) (t : Option String) :
    (on_press s x y t).doc = s.doc := by
  unfold on_press
  repeat' split
  all_goals rfl

theorem on_press_current_page (s : AnnotatorState) (x y : Int) (t : Option String) :
    (on_press s x y t).current_page = s.current_page := by
  unfold on_press
  repeat' split
  all_goals rfl

theorem on_drag_annotations (s : AnnotatorState) (x y : Int) :
    (on_drag s x y).annotations = s.annotations := by
  unfold on_drag
  repeat' split
  all_goals rfl

theorem on_drag_doc (s : AnnotatorState) (x y : Int) :
    (on_drag s x y).doc = s.doc := by
  unfold on_drag
  repeat' split
  all_goals rfl

theorem on_drag_current_page (s : AnnotatorState) (x y : Int) :
    (on_drag s x y).current_page = s.current_page := by
  unfold on_drag
  repeat' split
  all_goals rfl

theorem on_release_doc (s : AnnotatorState) :
    (on_release s).doc = s.doc := by
  unfold on_release
  repeat' split
  all_goals rfl

theorem on_release_current_page (s : AnnotatorState) :
    (on_release s).current_page = s.current_page := by
  unfold on_release
  repeat' split
  all_goals rfl

theorem prev_page_annotations (s : AnnotatorState) (r : LibResult Unit) :
    (prev_page s r).state.annotations = s.annotations := by
  rw [prev_page_state]
  split
  · rfl
  · split <;> rfl

theorem next_page_annotations (s : AnnotatorState) (r : LibResult Unit) :
    (next_page s r).state.annotations = s.annotations := by
  rw [next_page_state]
  split
  · rfl
  · split <;> rfl

theorem prev_page_doc (s : AnnotatorState) (r : LibResult Unit) :
    (prev_page s r).state.doc = s.doc := by
  rw [prev_page_state]
  split
  · rfl
  · split <;> rfl

theorem next_page_doc (s : AnnotatorState) (r : LibResult Unit) :
    (next_page s r).state.doc = s.doc := by
  rw [next_page_state]
  split
  · rfl
  · split <;> rfl

/-! ### Invariants of the annotator state machine -/

theorem entriesNonempty_step (s : AnnotatorState) (e : AnnEvent)
    (h : entriesNonempty s) : entriesNonempty (step s e) := by
  cases e with
  | openPdf path openRes render =>
    cases path with
    | none => exact h
    | some p =>
      cases openRes with
      | error err => exact h
      | ok n =>
        intro k v hk
        cases render with
        | ok u => simp [step, open_pdf, display_page, getAnn] at hk
        | error err => simp [step, open_pdf, display_page, getAnn] at hk
  | prevPage render =>
    intro k v hk
    refine h k v ?_
    rw [← prev_page_annotations s render]
    exact hk
  | nextPage render =>
    intro k v hk
    refine h k v ?_
    rw [← next_page_annotations s render]
    exact hk
  | setMode m => exact h
  | drag x y =>
    intro k v hk
    refine h k v ?_
    rw [← on_drag_annotations s x y]
    exact hk
  | savePdf p r =>
    intro k v hk
    refine h k v ?_
    rw [← show (save_pdf s p r).1.state.annotations = s.annotations from by
      rw [save_pdf_state]]
    exact hk
  | press x y t =>
    intro k v hk
    by_cases hmode : s.mode = "draw"
    · simp [step, on_press, hmode] at hk
      exact h k v hk
    · by_cases hmode2 : s.mode = "text"
      · cases t with
        | none =>
          simp [step, on_press, hmode, hmode2] at hk
          exact h k v hk
        | some t0 =>
          by_cases ht : t0 = ""
          · simp [step, on_press, hmode, hmode2, ht] at hk
            exact h k v hk
          · simp [step, on_press, hmode, hmode2, ht, getAnn_markPage] at hk
            by_cases hkp : s.current_page = k
            · rw [if_pos hkp] at hk
              injection hk with hv
              right
              rw [← hv]
              simp
            · rw [if_neg hkp] at hk
              exact h k v hk
      · simp [step, on_press, hmode, hmode2] at hk
        exact h k v hk
  | release =>
    intro k v hk
    by_cases hmode : s.mode = "draw"
    · cases hline : s.current_line with
      | none =>
        simp [step, on_release, hmode, hline] at hk
        exact h k v hk
      | some pts =>
        simp [step, on_release, hmode, hline, getAnn_markPage] at hk
        by_cases hkp : s.current_page = k
        · rw [if_pos hkp] at hk
          injection hk with hv
          left
          rw [← hv]
          simp
        · rw [if_neg hkp] at hk
          exact h k v hk
    · simp [step, on_release, hmode] at hk
      exact h k v hk

theorem pageInBounds_step (s : AnnotatorState) (e : AnnEvent)
    (h : pageInBounds s) : pageInBounds (step s e) := by
  cases e with
  | openPdf path openRes render =>
    cases path with
    | none => exact h
    | some p =>
      cases openRes with
      | error err => exact h
      | ok n =>
        cases render with
        | ok u =>
          intro n1 hdoc hn1
          have he2 : n = n1 := Option.some.inj hdoc
          show 0 < n1
          omega
        | error err =>
          intro n1 hdoc hn1
          have he2 : n = n1 := Option.some.inj hdoc
          show 0 < n1
          omega
  | prevPage render =>
    intro n1 hdoc hn1
    have hsdoc : s.doc = some n1 := by
      rw [← prev_page_doc s render]
      exact hdoc
    have hb := h n1 hsdoc hn1
    have hcp : (step s (.prevPage render)).current_page =
        (prev_page s render).state.current_page := rfl
    rw [hcp, prev_page_state, hsdoc]
    show (if 0 < s.current_page then
        { doc := some n1, current_page := s.current_page - 1, annotations := s.annotations,
          mode := s.mode, current_line := s.current_line }
      else s).current_page < n1
    by_cases hc : 0 < s.current_page
    · rw [if_pos hc]
      show s.current_page - 1 < n1
      omega
    · rw [if_neg hc]
      exact hb
  | nextPage render =>
    intro n1 hdoc hn1
    have hsdoc : s.doc = some n1 := by
      rw [← next_page_doc s render]
      exact hdoc
    have hb := h n1 hsdoc hn1
    have hcp : (step s (.nextPage render)).current_page =
        (next_page s render).state.current_page := rfl
    rw [hcp, next_page_state, hsdoc]
    show (if s.current_page < n1 - 1 then
        { doc := some n1, current_page := s.current_page + 1, annotations := s.annotations,
          mode := s.mode, current_line := s.current_line }
      else s).current_page < n1
    by_cases hc : s.current_page < n1 - 1
    · rw [if_pos hc]
      show s.current_page + 1 < n1
      omega
    · rw [if_neg hc]
      exact hb
  | setMode m => exact h
  | press x y t =>
    intro n1 hdoc hn1
    have hdoc2 : (on_press s x y t).doc = some n1 := hdoc
    rw [on_press_doc] at hdoc2
    have hb := h n1 hdoc2 hn1
    show (on_press s x y t).current_page < n1
    rw [on_press_current_page]
    exact hb
  | drag x y =>
    intro n1 hdoc hn1
    have hdoc2 : (on_drag s x y).doc = some n1 := hdoc
    rw [on_drag_doc] at hdoc2
    have hb := h n1 hdoc2 hn1
    show (on_drag s x y).current_page < n1
    rw [on_drag_current_page]
    exact hb
  | release =>
    intro n1 hdoc hn1
    have hdoc2 : (on_release s).doc = some n1 := hdoc
    rw [on_release_doc] at hdoc2
    have hb := h n1 hdoc2 hn1
    show (on_release s).current_page < n1
    rw [on_release_current_page]
    exact hb
  | savePdf p r =>
    intro n1 hdoc hn1
    have hdoc2 : (save_pdf s p r).1.state.doc = some n1 := hdoc
    rw [save_pdf_state] at hdoc2
    have hb := h n1 hdoc2 hn1
    show (save_pdf s p r).1.state.current_page < n1
    rw [save_pdf_state]
    exact hb

theorem entriesNonempty_runTrace (tr : List AnnEvent) :
    entriesNonempty (runTrace tr) := by
  have hgen : ∀ (s : AnnotatorState), entriesNonempty s →
      entriesNonempty (tr.foldl step s) := by
    induction tr with
    | nil => exact fun s hs => hs
    | cons e tl ih => exact fun s hs => ih (step s e) (entriesNonempty_step s e hs)
  refine hgen initState ?_
  intro k v hk
  simp [initState, getAnn] at hk

theorem pageInBounds_runTrace (tr : List AnnEvent) :
    pageInBounds (runTrace tr) := by
  have hgen : ∀ (s : AnnotatorState), pageInBounds s →
      pageInBounds (tr.foldl step s) := by
    induction tr with
    | nil => exact fun s hs => hs
    | cons e tl ih => exact fun s hs => ih (step s e) (pageInBounds_step s e hs)
  refine hgen initState ?_
  intro n hdoc hn
  simp [initState] at hdoc

/-! ### The claims -/

/-- C1: the claim says every user-triggered action catches library
exceptions and shows a message box, never propagating them.  This fails for
page navigation: `prev_page` (and `next_page`, via `display_page`) has no
try/except, so a rendering failure while navigating from page 1 of a
two-page document escapes the handler, and no message box is shown. -/
theorem nav_exception_escapes :
    (prev_page navState (.error "get_pixmap failed")).raised =
      some "get_pixmap failed" ∧
    (prev_page navState (.error "get_pixmap failed")).msgs = [] := by
  constructor <;> rfl

/-- C1 amended: `convert`, `open_pdf`, `save_pdf`, `full_screen` and the
region capture catch every exception of the underlying library calls and
never propagate one, and each of them surfaces the caught exception as a
single modal error box carrying the exception's message; but `display_page`
and hence the `prev_page` / `next_page` navigation handlers have no such
guard, and a rendering exception there escapes to the caller with its
original message. -/
theorem handlers_catch_amended :
    (∀ (s : AnnotatorState) (path : Option String) (openRes : LibResult Nat)
        (render : LibResult Unit), (open_pdf s path openRes render).raised = none) ∧
    (∀ (s : AnnotatorState) (savePath : Option String) (saveRes : LibResult Unit),
      (save_pdf s savePath saveRes).1.raised = none) ∧
    (∀ (s : ConverterState) (savePath : Option String) (convRes : LibResult Unit),
      (convert s savePath convRes).raised = none) ∧
    (∀ (path : Option String) (grabSave : LibResult Unit),
      (full_screen path grabSave).raised = none) ∧
    (∀ (bbox : Option (Int × Int × Int × Int)) (path : Option String)
        (grabSave : LibResult Unit), (region bbox path grabSave).raised = none) ∧
    (∀ (s : AnnotatorState) (p : String) (e : String) (render : LibResult Unit),
      (open_pdf s (some p) (.error e) render).msgs =
        [errorBox "Error" ("Failed to open PDF: " ++ e)]) ∧
    (∀ (s : AnnotatorState) (p : String) (n : Nat) (e : String),
      (open_pdf s (some p) (.ok n) (.error e)).msgs =
        [errorBox "Error" ("Failed to open PDF: " ++ e)]) ∧
    (∀ (dn cp : Nat) (anns : AnnMap) (m : String) (cl : Option (List (Int × Int)))
        (p e : String),
      (save_pdf { doc := some dn, current_page := cp, annotations := anns, mode := m,
                  current_line := cl } (some p) (.error e)).1.msgs =
        [errorBox "Error" ("Failed to save: " ++ e)]) ∧
    (∀ (ip fv we he de : String) (gv : Bool) (p e : String),
      (convert { input_path := some ip, format_var := fv, width_entry := we,
                 height_entry := he, dpi_entry := de, gray_var := gv }
          (some p) (.error e)).msgs =
        [errorBox "Error" ("Conversion failed: " ++ e)]) ∧
    (∀ (p e : String),
      (full_screen (some p) (.error e)).msgs =
        [errorBox "Error" ("Failed to capture screenshot: " ++ e)]) ∧
    (∀ (bb : Int × Int × Int × Int) (p e : String),
      (region (some bb) (some p) (.error e)).msgs =
        [errorBox "Error" ("Failed to capture screenshot: " ++ e)]) ∧
    (∀ (n cp : Nat) (anns : AnnMap) (m : String) (cl : Option (List (Int × Int)))
        (e : String),
      (prev_page { doc := some n, current_page := cp + 1, annotations := anns,
                   mode := m, current_line := cl } (.error e)).raised = some e) ∧
    (∀ (cp k : Nat) (anns : AnnMap) (m : String) (cl : Option (List (Int × Int)))
        (e : String),
      (next_page { doc := some (cp + k + 2), current_page := cp, annotations := anns,
                   mode := m, current_line := cl } (.error e)).raised = some e) := by
  refine ⟨?_, ?_, ?_, ?_, ?_, ?_, ?_, ?_, ?_, ?_, ?_, ?_, ?_⟩
  · intro s path openRes render
    cases path <;> cases openRes <;> cases render <;> rfl
  · intro s savePath saveRes
    obtain ⟨doc, cp, anns, m, cl⟩ := s
    cases doc <;> cases savePath <;> cases saveRes <;> rfl
  · intro s savePath convRes
    obtain ⟨ip, fv, we, he, de, gv⟩ := s
    cases ip <;> cases savePath <;> cases convRes <;> rfl
  · intro path grabSave
    cases path <;> cases grabSave <;> rfl
  · intro bbox path grabSave
    cases bbox <;> cases path <;> cases grabSave <;> rfl
  · intro s p e render
    rfl
  · intro s p n e
    rfl
  · intro dn cp anns m cl p e
    rfl
  · intro ip fv we he de gv p e
    rfl
  · intro p e
    rfl
  · intro bb p e
    rfl
  · intro n cp anns m cl e
    simp only [prev_page]
    rw [if_pos (show 0 < cp + 1 by omega)]
    rfl
  · intro cp k anns m cl e
    simp only [next_page]
    rw [if_pos (show cp < cp + k + 2 - 1 by omega)]
    rfl

/-- C2: the claim says the in-memory per-page annotation records are no
longer available after a successful save.  They are: `save_pdf` flattens the
records into the document but never clears `annotations`, so after a
successful save of `savedState` the page-0 record is still retrievable in
full. -/
theorem annotations_survive_save :
    (save_pdf savedState (some "out.pdf") (.ok ())).1.msgs =
      [infoBox "Saved" "Annotations saved to out.pdf"] ∧
    getAnn (save_pdf savedState (some "out.pdf") (.ok ())).1.state.annotations 0 =
      some { strokes := [[(1, 2), (3, 4)]], texts := [(5, 6, "note")] } := by
  constructor <;> rfl

/-- C2 amended: a successful save flattens every page's strokes and texts
into the document's drawing/text layer (strokes as polylines, then the text
insertions), but the in-memory annotation structure is retained unchanged by
`save_pdf`: the records remain fully recoverable after the save. -/
theorem save_flattens_retains_annotations :
    (∀ (dn cp : Nat) (anns : AnnMap) (m : String) (cl : Option (List (Int × Int)))
        (p : String),
      (save_pdf { doc := some dn, current_page := cp, annotations := anns, mode := m,
                  current_line := cl } (some p) (.ok ())).2 =
        anns.map (fun kv => (kv.1, flatten_page kv.2))) ∧
    (∀ (s : AnnotatorState) (savePath : Option String) (saveRes : LibResult Unit),
      (save_pdf s savePath saveRes).1.state = s) := by
  constructor
  · intro dn cp anns m cl p
    rfl
  · exact save_pdf_state

/-- C5: opening a document successfully empties the annotations dict and
resets the current page index to 0 (and installs the new document), whatever
state the annotator was in before, so no annotation of a previously open
document survives a reopen. -/
theorem open_pdf_resets (s : AnnotatorState) (p : String) (n : Nat)
    (render : LibResult Unit) :
    (open_pdf s (some p) (.ok n) render).state.annotations = [] ∧
    (open_pdf s (some p) (.ok n) render).state.current_page = 0 ∧
    (open_pdf s (some p) (.ok n) render).state.doc = some n := by
  cases render <;> exact ⟨rfl, rfl, rfl⟩

/-- C6: the converter's selectable output formats are exactly the standard
image formats JPEG, PNG, TIFF, BMP, GIF, WEBP plus PDF, and the read-only
combobox can only ever yield an element of that list. -/
theorem formats_match_spec :
    (∀ f : String, f ∈ formats ↔ f ∈ spec_formats) ∧
    ∀ i : Fin formats.length, selected_format i ∈ spec_formats :=
  ⟨fun _ => Iff.rfl, fun i => List.get_mem formats i.1 i.2⟩

/-- C9: whatever the drag direction, the bounding box produced by releasing
a region selection is normalised: left is the minimum of the two x values,
top the minimum of the two y values, right and bottom the maxima, so
left ≤ right and top ≤ bottom always hold. -/
theorem region_bbox_normalized (s : RegionSelectorState) (px py rx ry : Int) :
    (selector_on_release (selector_on_press s px py) rx ry).bbox =
      some (min px rx, min py ry, max px rx, max py ry) ∧
    min px rx ≤ max px rx ∧ min py ry ≤ max py ry :=
  ⟨rfl, min_le_max, min_le_max⟩

/-- C3: per-page annotation records are created lazily.  In every state
reachable from a fresh annotator window, every record present in the
annotations dict holds at least one mark, so a page that never received a
mark has no entry; and the entry for the current page exists right after a
stroke is completed (draw-mode release with a line in progress) or a
nonempty text is placed (text-mode press). -/
theorem annotations_created_lazily :
    (∀ (tr : List AnnEvent) (k : Nat) (v : PageAnnotations),
      getAnn (runTrace tr).annotations k = some v → v.strokes ≠ [] ∨ v.texts ≠ []) ∧
    (∀ (s : AnnotatorState) (pts : List (Int × Int)),
      s.mode = "draw" → s.current_line = some pts →
      getAnn (on_release s).annotations s.current_page ≠ none) ∧
    (∀ (s : AnnotatorState) (x y : Int) (t : String),
      s.mode = "text" → t ≠ "" →
      getAnn (on_press s x y (some t)).annotations s.current_page ≠ none) := by
  refine ⟨entriesNonempty_runTrace, ?_, ?_⟩
  · intro s pts hmode hline
    simp [on_release, hmode, hline, getAnn_markPage]
  · intro s x y t hmode ht
    simp [on_press, hmode, ht, getAnn_markPage]

/-- Witness for C3: after opening a document and drawing one stroke on page
0, that page's record is nonempty; completing a stroke in `drawState`
creates the page-0 entry; placing the text "hi" in `textState` creates the
page-0 entry. -/
theorem annotations_created_lazily_witness :
    ((⟨[[(5, 5), (5, 5), (6, 7)]], []⟩ : PageAnnotations).strokes ≠ [] ∨
      (⟨[[(5, 5), (5, 5), (6, 7)]], []⟩ : PageAnnotations).texts ≠ []) ∧
    getAnn (on_release drawState).annotations drawState.current_page ≠ none ∧
    getAnn (on_press textState 3 4 (some "hi")).annotations textState.current_page ≠ none :=
  ⟨annotations_created_lazily.1 strokeTrace 0 ⟨[[(5, 5), (5, 5), (6, 7)]], []⟩ rfl,
   annotations_created_lazily.2.1 drawState [(1, 2), (1, 2)] rfl rfl,
   annotations_created_lazily.2.2 textState 3 4 "hi" rfl (by decide)⟩

/-- C4: a page's record holds exactly a stroke list and a text list;
completing a stroke appends the finished point list (in drawn order) to the
stroke list and leaves the texts untouched, and placing a nonempty text
appends its position and string to the text list and leaves the strokes
untouched. -/
theorem marks_append_in_order :
    (∀ (s : AnnotatorState) (pts : List (Int × Int)),
      s.mode = "draw" → s.current_line = some pts →
      getAnn (on_release s).annotations s.current_page =
        some { strokes :=
                 ((getAnn s.annotations s.current_page).getD PageAnnotations.empty).strokes
                   ++ [pts],
               texts :=
                 ((getAnn s.annotations s.current_page).getD PageAnnotations.empty).texts }) ∧
    (∀ (s : AnnotatorState) (x y : Int) (t : String),
      s.mode = "text" → t ≠ "" →
      getAnn (on_press s x y (some t)).annotations s.current_page =
        some { strokes :=
                 ((getAnn s.annotations s.current_page).getD PageAnnotations.empty).strokes,
               texts :=
                 ((getAnn s.annotations s.current_page).getD PageAnnotations.empty).texts
                   ++ [(x, y, t)] }) := by
  constructor
  · intro s pts hmode hline
    simp [on_release, hmode, hline, getAnn_markPage]
  · intro s x y t hmode ht
    simp [on_press, hmode, ht, getAnn_markPage]

/-- Witness for C4: in `richDrawState` (page 0 already holds one stroke and
one text, a stroke of three points in progress) releasing appends the new
stroke after the old one in point order; in `richTextState` placing "hi" at
(7, 8) appends the label after the old one. -/
theorem marks_append_in_order_witness :
    getAnn (on_release richDrawState).annotations richDrawState.current_page =
      some { strokes := [[(9, 9)], [(1, 2), (1, 2), (3, 4)]], texts := [(0, 0, "a")] } ∧
    getAnn (on_press richTextState 7 8 (some "hi")).annotations richTextState.current_page =
      some { strokes := [[(9, 9)]], texts := [(0, 0, "a"), (7, 8, "hi")] } :=
  ⟨marks_append_in_order.1 richDrawState [(1, 2), (1, 2), (3, 4)] rfl rfl,
   marks_append_in_order.2 richTextState 7 8 "hi" rfl (by decide)⟩

/-- C8: for every event sequence from a fresh annotator window, if a
document with n ≥ 1 pages is open then the current page index lies in
0 .. n-1 (the index is a natural number, so only the upper bound is
substantive): navigation never moves before the first page or past the
last. -/
theorem current_page_stays_in_bounds (tr : List AnnEvent) (n : Nat)
    (hdoc : (runTrace tr).doc = some n) (hn : 1 ≤ n) :
    (runTrace tr).current_page < n :=
  pageInBounds_runTrace tr n hdoc hn

/-- Witness for C8: after opening a three-page document and navigating
forward three times and back once, the page index is still below 3. -/
theorem current_page_stays_in_bounds_witness :
    (runTrace navTrace).current_page < 3 :=
  current_page_stays_in_bounds navTrace 3 rfl (by decide)

end Toolbox
